import Mathlib

/-!
Shallow embedding of two slices of the keras repository fragment:

* `keras/layers/rnn/cell_wrappers.py`: the `_RNNCellWrapper` base class and
  its subclasses `DropoutWrapper`, `ResidualWrapper`, `DeviceWrapper`.
* `keras/dtensor/mnist_model_test.py`: the `test_mnist_training_cpu` test,
  in particular its mesh setup and its pass criterion.

Tensors are embedded as lists of integers, keyword-argument packs as
association lists, and Python dictionaries as association lists in insertion
order where lookup returns the value of the last occurrence of a key (the
value a Python `dict(...)` built from that item list would hold).  Code of
the repository that is not under `src/` (the `base_cell_wrappers` mixins,
`deserialize_layer`, the keras base-layer lifecycle, the cell classes) is
either kept abstract as a parameter or modelled from the spec, as flagged in
the doc comments.
-/

/-- A tensor value, embedded as a list of integers. -/
abbrev Tensor := List Int

/-- A pack of extra keyword arguments forwarded through `**kwargs`. -/
abbrev KWArgs := List (String × Int)

/-- An input shape, as passed to `build`. -/
abbrev Shape := List Nat

/-- The type of a cell's `call` method: `(inputs, state, **kwargs)` to
`(output, new_state)`. -/
abbrev CellCallFn := Tensor → Tensor → KWArgs → Tensor × Tensor

/-- A configuration value stored in a layer config dictionary: either a plain
(string) value, or the nested dictionary
`{"class_name": ..., "config": ...}` that `_RNNCellWrapper.get_config`
stores under the key `"cell"`. -/
inductive CVal where
  | str (s : String)
  | cellEntry (className : String) (config : List (String × String))
deriving DecidableEq, Repr

/-- A Python dictionary of configuration values, embedded as an association
list in item order. -/
abbrev Dict := List (String × CVal)

/-- Lookup in a dictionary built from an item list: the value of the last
occurrence of the key wins, as in Python `dict(items)[k]`. -/
def dget (d : Dict) (k : String) : Option CVal :=
  (d.reverse.find? (fun p => p.1 = k)).map (fun p => p.2)

/-- Removal of a key from a dictionary, as effected by `dict.pop(k)`. -/
def dremove (d : Dict) (k : String) : Dict :=
  d.filter (fun p => ¬ p.1 = k)

/-- A wrapped recurrent cell.  Its behaviour that lives outside `src/`
(its class, its own `get_config`, its `call` method and that method's
inspected signature) is carried as data:

* `className` is `cell.__class__.__name__`;
* `getConfig` is what `cell.get_config()` returns, kept abstract as a flat
  string dictionary;
* `call` is the cell's `call` method;
* `callSpecArgs` and `callSpecVarkw` are the `args` and `varkw` fields of
  `tf_inspect.getfullargspec(cell.call)`;
* `isLSTMV1` is whether `isinstance(cell, lstm_v1.LSTMCell)` holds;
* `built` is the keras `built` flag;
* `buildCalls` records each shape `cell.build` has been invoked with, so
  that delegation of `build` is observable in the embedding. -/
structure Cell where
  className : String
  getConfig : List (String × String)
  call : CellCallFn
  callSpecArgs : List String
  callSpecVarkw : Option String
  isLSTMV1 : Bool
  built : Bool
  buildCalls : List Shape

/-- Modelled from the spec: the wrapped cell's `build` method (the cell
classes are outside `src/`).  Per the keras layer lifecycle the spec's cell
wrappers reuse, `build` receives the input shape and marks the layer built;
the embedding additionally records the shape it was invoked with. -/
def Cell.build (c : Cell) (inputsShape : Shape) : Cell :=
  { c with built := true, buildCalls := c.buildCalls ++ [inputsShape] }

/-- The type of `_call_wrapped_cell`, the per-subclass hook supplied by the
`base_cell_wrappers` mixin classes (outside `src/`):
`(inputs, state, cell_call_fn, **kwargs)` to `(output, new_state)`. -/
abbrev CallWrappedCellFn := Tensor → Tensor → CellCallFn → KWArgs → Tensor × Tensor

/-- The state of a `_RNNCellWrapper` instance.  `callWrappedCellFn` is the
`_call_wrapped_cell` implementation inherited from the subclass's
`base_cell_wrappers` mixin, kept abstract; `baseConfig` is what the base
layer's `get_config` (`super().get_config()`) returns, kept abstract. -/
structure RNNCellWrapper where
  cell : Cell
  expectsTrainingArg : Bool
  built : Bool
  callWrappedCellFn : CallWrappedCellFn
  baseConfig : Dict

/-- `_RNNCellWrapper.__init__`: stores the cell and computes
`_expects_training_arg` from the full argspec of `cell.call`:
`("training" in cell_call_spec.args) or (cell_call_spec.varkw is not None)`.
The base layer's `__init__` leaves the layer unbuilt. -/
def RNNCellWrapper.init (cell : Cell) (cwc : CallWrappedCellFn)
    (baseConfig : Dict) : RNNCellWrapper :=
  { cell := cell
    expectsTrainingArg :=
      cell.callSpecArgs.contains "training" || cell.callSpecVarkw.isSome
    built := false
    callWrappedCellFn := cwc
    baseConfig := baseConfig }

/-- `_RNNCellWrapper.call`: runs the RNN cell step computation by delegating
to `self._call_wrapped_cell(inputs, state, cell_call_fn=self.cell.call,
**kwargs)`. -/
def RNNCellWrapper.call (w : RNNCellWrapper) (inputs state : Tensor)
    (kwargs : KWArgs) : Tensor × Tensor :=
  w.callWrappedCellFn inputs state w.cell.call kwargs

/-- `_RNNCellWrapper.build`: builds the wrapped cell with the given input
shape (`self.cell.build(inputs_shape)`) and then sets `self.built = True`. -/
def RNNCellWrapper.build (w : RNNCellWrapper) (inputsShape : Shape) :
    RNNCellWrapper :=
  { w with cell := w.cell.build inputsShape, built := true }

/-- `_RNNCellWrapper.get_config`: returns
`dict(list(base_config.items()) + list(config.items()))` where `config`
maps `"cell"` to `{"class_name": cell.__class__.__name__, "config":
cell.get_config()}`, so the wrapper's items come after the base items. -/
def RNNCellWrapper.getConfig (w : RNNCellWrapper) : Dict :=
  w.baseConfig ++ [("cell", CVal.cellEntry w.cell.className w.cell.getConfig)]

/-- `_RNNCellWrapper.from_config`: copies the config, pops `"cell"` from the
copy, deserializes it, and constructs `cls(cell, **config)`.
`deserialize_layer` lives outside `src/` and is abstract, as is the class
constructor `cls` being invoked; a missing `"cell"` key (Python `KeyError`)
is embedded as `none`. -/
def RNNCellWrapper.fromConfig {α : Type} (deserializeLayer : CVal → Cell)
    (cls : Cell → Dict → α) (config : Dict) : Option α :=
  match dget config "cell" with
  | none => none
  | some cv => some (cls (deserializeLayer cv) (dremove config "cell"))

/-- `DropoutWrapper.__init__`: delegates to the base constructors, then
raises `ValueError` when `isinstance(self.cell, lstm_v1.LSTMCell)`. -/
def DropoutWrapper.init (cell : Cell) (cwc : CallWrappedCellFn)
    (baseConfig : Dict) : Except String RNNCellWrapper :=
  let w := RNNCellWrapper.init cell cwc baseConfig
  if w.cell.isLSTMV1 then
    Except.error ("keras LSTM cell does not work with DropoutWrapper. " ++
      "Please use LSTMCell(dropout=x, recurrent_dropout=y) instead.")
  else
    Except.ok w

/-- Elementwise tensor addition, the meaning of `output + inputs` on tensors
of equal shape. -/
def tensorAdd (a b : Tensor) : Tensor :=
  List.zipWith (fun x y => x + y) a b

/-- Modelled from the spec: `ResidualWrapperBase._call_wrapped_cell` lives in
`base_cell_wrappers`, outside `src/`.  Per the spec's residual-addition
description (and the class docstring, "RNNCell wrapper that ensures cell
inputs are added to the outputs"), it runs the cell and adds the cell inputs
to the cell output, passing the new state through. -/
def residualCallWrappedCell : CallWrappedCellFn :=
  fun inputs state cellCallFn kwargs =>
    let res := cellCallFn inputs state kwargs
    (tensorAdd res.1 inputs, res.2)

/-- `ResidualWrapper.__init__`: pure delegation to the base constructors,
with the residual `_call_wrapped_cell` inherited from
`ResidualWrapperBase`. -/
def ResidualWrapper.init (cell : Cell) (baseConfig : Dict) : RNNCellWrapper :=
  RNNCellWrapper.init cell residualCallWrappedCell baseConfig

/-!
Python dictionaries are mutable objects passed by reference.  To state the
frame property of `from_config` (its `config.copy()` shields the caller's
dictionary from the `pop`), the embedding below threads an explicit heap of
dictionaries addressed by natural-number references.
-/

/-- A heap of dictionary objects; a reference is an index into the list. -/
structure Heap where
  dicts : List Dict

/-- Allocation of a fresh dictionary object, returning its reference. -/
def Heap.alloc (h : Heap) (d : Dict) : Heap × Nat :=
  (⟨h.dicts ++ [d]⟩, h.dicts.length)

/-- The dictionary a reference points to. -/
def Heap.get (h : Heap) (r : Nat) : Dict :=
  h.dicts.getD r []

/-- In-place update of the dictionary a reference points to. -/
def Heap.set (h : Heap) (r : Nat) (d : Dict) : Heap :=
  ⟨h.dicts.set r d⟩

/-- `_RNNCellWrapper.from_config` with its heap effects made explicit, step
by step: `config = config.copy()` allocates a fresh dictionary holding the
same items; `config.pop("cell")` reads the `"cell"` entry of the copy and
removes it from the copy in place (raising `KeyError`, embedded as `none`,
when absent); finally `cls(cell, **config)` is built from the mutated
copy. -/
def RNNCellWrapper.fromConfigRef {α : Type} (deserializeLayer : CVal → Cell)
    (cls : Cell → Dict → α) (h : Heap) (r : Nat) : Heap × Option α :=
  let copied := h.alloc (h.get r)
  let h1 := copied.1
  let r1 := copied.2
  match dget (h1.get r1) "cell" with
  | none => (h1, none)
  | some cv =>
    let h2 := h1.set r1 (dremove (h1.get r1) "cell")
    (h2, some (cls (deserializeLayer cv) (h2.get r1)))

/-!
Embedding of `MnistTest.test_mnist_training_cpu`
(`keras/dtensor/mnist_model_test.py`).  The model, optimizer and training
loop live outside `src/`; what the test itself fixes is the simulated
device configuration, the mesh, and the pass criterion applied to the
returned list of losses.
-/

/-- The logical-device configuration the test installs on the first physical
CPU device: `tf.config.set_logical_device_configuration(devices[0],
[tf.config.LogicalDeviceConfiguration(),] * 8)`. -/
structure LogicalDeviceSetting where
  physicalDeviceIndex : Nat
  configs : List Unit

/-- The test's logical-device call: device index 0 of the physical CPU list,
with the configuration list `[LogicalDeviceConfiguration(),] * 8`. -/
def mnistCpuLogicalDeviceSetting : LogicalDeviceSetting :=
  { physicalDeviceIndex := 0, configs := List.replicate 8 () }

/-- A mesh request as passed to `mesh_util.create_mesh`: the device list and
the named mesh dimensions. -/
structure MeshSpec where
  devices : List String
  meshDims : List (String × Nat)

/-- The mesh the test creates:
`create_mesh(devices=['CPU:%d' % i for i in range(8)],
mesh_dims=[('batch', 8)])`. -/
def mnistCpuMesh : MeshSpec :=
  { devices := (List.range 8).map (fun i => "CPU:" ++ toString i)
    meshDims := [("batch", 8)] }

/-- Python's `sorted(losses, reverse=True)`: a stable sort into descending
order.  Training losses are embedded as rationals. -/
def pySortedDescending (losses : List ℚ) : List ℚ :=
  List.insertionSort (fun a b => b ≤ a) losses

/-- The pass criterion of `test_mnist_training_cpu`:
`self.assertEqual(train_losses, sorted(train_losses, reverse=True))`. -/
def testMnistTrainingCpuPasses (trainLosses : List ℚ) : Bool :=
  decide (trainLosses = pySortedDescending trainLosses)

/-- A sample wrapped cell, used to instantiate the witnesses. -/
def sampleCell : Cell :=
  { className := "GRUCell"
    getConfig := [("units", "4")]
    call := fun inputs state _ => (inputs.map (fun x => 2 * x), state)
    callSpecArgs := ["self", "inputs", "states", "training"]
    callSpecVarkw := none
    isLSTMV1 := false
    built := false
    buildCalls := [] }

/-!  Dictionary lookup lemmas shared by the config theorems. -/

theorem dget_append_single (d : Dict) (k : String) (v : CVal) :
    dget (d ++ [(k, v)]) k = some v := by
  simp [dget]

theorem dget_append_single_ne (d : Dict) (k k2 : String) (v : CVal)
    (h : ¬ k2 = k) : dget (d ++ [(k, v)]) k2 = dget d k2 := by
  have hk : (decide (k = k2)) = false := decide_eq_false (fun he => h he.symm)
  simp [dget, List.find?_cons, hk]

/-!  Claim theorems. -/

/-- C1: for every wrapper state `w` (as produced for `DropoutWrapper`,
`ResidualWrapper` and `DeviceWrapper` alike) and all inputs, state and extra
keyword arguments, `w.call` returns exactly
`self._call_wrapped_cell(inputs, state, cell_call_fn=self.cell.call,
**kwargs)`: the per-step computation is delegated to the wrapped cell's own
`call` method. -/
theorem call_delegates_to_wrapped_cell (w : RNNCellWrapper)
    (inputs state : Tensor) (kwargs : KWArgs) :
    w.call inputs state kwargs
      = w.callWrappedCellFn inputs state w.cell.call kwargs := rfl

/-- C4: `w.build s` invokes the wrapped cell's `build` with exactly the
shape `s` and then sets `w.built` to `True`; afterwards both the wrapper and
(via its own `build`) the wrapped cell are marked built. -/
theorem build_delegates_and_marks_built (w : RNNCellWrapper) (s : Shape) :
    (w.build s).cell.buildCalls = w.cell.buildCalls ++ [s] ∧
    (w.build s).built = true ∧ (w.build s).cell.built = true :=
  ⟨rfl, rfl, rfl⟩

/-- C9: the constructor sets `_expects_training_arg` to true exactly when
`"training"` occurs among the named arguments of `cell.call`'s inspected
signature or that signature's `varkw` is not `None`. -/
theorem init_expects_training_arg_iff (cell : Cell) (cwc : CallWrappedCellFn)
    (bc : Dict) :
    (RNNCellWrapper.init cell cwc bc).expectsTrainingArg = true ↔
      ("training" ∈ cell.callSpecArgs ∨ cell.callSpecVarkw ≠ none) := by
  simp [RNNCellWrapper.init, Option.isSome_iff_ne_none]

/-- Closed instance of `init_expects_training_arg_iff` at the sample cell,
whose `call` signature names `training`. -/
theorem init_expects_training_arg_iff_witness :
    (RNNCellWrapper.init sampleCell residualCallWrappedCell []
      ).expectsTrainingArg = true :=
  (init_expects_training_arg_iff sampleCell residualCallWrappedCell []).mpr
    (Or.inl (by decide))

/-- C5: `w.get_config()` maps `"cell"` to the dictionary holding exactly the
wrapped cell's class name under `"class_name"` and the wrapped cell's own
`get_config()` under `"config"`, merged over the base layer's config; the
wrapper's `"cell"` entry, listed after the base items, overrides any base
entry under that key, and every other key keeps its base-config value. -/
theorem get_config_cell_entry (w : RNNCellWrapper) :
    dget w.getConfig "cell"
        = some (CVal.cellEntry w.cell.className w.cell.getConfig) ∧
    ∀ k, ¬ k = "cell" → dget w.getConfig k = dget w.baseConfig k := by
  constructor
  · exact dget_append_single w.baseConfig "cell" _
  · intro k hk
    exact dget_append_single_ne w.baseConfig "cell" k _ hk

/-- Closed instance of `get_config_cell_entry` at a concrete wrapper,
discharging the inner hypothesis at the key `"name"`. -/
theorem get_config_cell_entry_witness :
    dget ((RNNCellWrapper.init sampleCell residualCallWrappedCell
          [("name", CVal.str "w"), ("cell", CVal.str "stale")]).getConfig)
        "cell" = some (CVal.cellEntry "GRUCell" [("units", "4")]) ∧
    dget ((RNNCellWrapper.init sampleCell residualCallWrappedCell
          [("name", CVal.str "w"), ("cell", CVal.str "stale")]).getConfig)
        "name" = some (CVal.str "w") := by
  have h := get_config_cell_entry (RNNCellWrapper.init sampleCell
    residualCallWrappedCell [("name", CVal.str "w"), ("cell", CVal.str "stale")])
  exact ⟨h.1, (h.2 "name" (by decide)).trans (by decide)⟩

/-- C2: `from_config` applied to `w.get_config()` deserializes exactly the
`"cell"` entry that `get_config` stored (the wrapped cell's class name and
own config) and passes every remaining config entry through to the class
constructor. -/
theorem from_config_round_trip {α : Type} (deserializeLayer : CVal → Cell)
    (cls : Cell → Dict → α) (cell : Cell) (cwc : CallWrappedCellFn)
    (bc : Dict) :
    RNNCellWrapper.fromConfig deserializeLayer cls
        (RNNCellWrapper.init cell cwc bc).getConfig
      = some (cls
          (deserializeLayer (CVal.cellEntry cell.className cell.getConfig))
          (dremove bc "cell")) := by
  simp only [RNNCellWrapper.fromConfig, RNNCellWrapper.getConfig,
    RNNCellWrapper.init]
  rw [dget_append_single]
  simp [dremove, List.filter_append]

/-- C6: for a built `ResidualWrapper`, the output component of
`call(inputs, state)` is the wrapped cell's output with the cell inputs
added to it, and the returned new state is the wrapped cell's new state. -/
theorem residual_wrapper_call_adds_inputs (cell : Cell) (bc : Dict)
    (sh : Shape) (inputs state : Tensor) (kwargs : KWArgs) :
    ((ResidualWrapper.init cell bc).build sh).call inputs state kwargs
      = (tensorAdd (cell.call inputs state kwargs).1 inputs,
         (cell.call inputs state kwargs).2) := rfl

/-- C8: constructing a `DropoutWrapper` raises `ValueError` precisely when
the wrapped cell is a keras v1 `LSTMCell`; for every other cell the
constructor completes normally, and on the error path no wrapper is
produced. -/
theorem dropout_wrapper_init_rejects_lstm_v1 (cell : Cell)
    (cwc : CallWrappedCellFn) (bc : Dict) :
    ((∃ msg, DropoutWrapper.init cell cwc bc = Except.error msg) ↔
        cell.isLSTMV1 = true) ∧
    ((∃ w, DropoutWrapper.init cell cwc bc = Except.ok w) ↔
        cell.isLSTMV1 = false) := by
  cases hL : cell.isLSTMV1 <;>
    simp [DropoutWrapper.init, RNNCellWrapper.init, hL]

/-- Closed instance of `dropout_wrapper_init_rejects_lstm_v1` at the sample
cell, which is not a v1 `LSTMCell`. -/
theorem dropout_wrapper_init_rejects_lstm_v1_witness :
    sampleCell.isLSTMV1 = false ∧
    (∃ w, DropoutWrapper.init sampleCell residualCallWrappedCell []
      = Except.ok w) :=
  ⟨by decide,
    (dropout_wrapper_init_rejects_lstm_v1 sampleCell
      residualCallWrappedCell []).2.mpr (by decide)⟩

/-- C10: `from_config` pops `"cell"` only from a shallow copy of its
argument, so the caller's dictionary object is unchanged after the call and
in particular still holds its `"cell"` entry. -/
theorem from_config_does_not_mutate_caller {α : Type}
    (deserializeLayer : CVal → Cell) (cls : Cell → Dict → α) (h : Heap)
    (r : Nat) (hr : r < h.dicts.length) :
    (RNNCellWrapper.fromConfigRef deserializeLayer cls h r).1.get r
        = h.get r ∧
    dget ((RNNCellWrapper.fromConfigRef deserializeLayer cls h r).1.get r)
        "cell" = dget (h.get r) "cell" := by
  have hget1 : ∀ d : Dict, (Heap.mk (h.dicts ++ [d])).get r = h.get r := by
    intro d
    simp [Heap.get, List.getD_eq_getElem?_getD, List.getElem?_append, hr]
  have hne : h.dicts.length ≠ r := Ne.symm (Nat.ne_of_lt hr)
  have hset : ∀ d d2 : Dict,
      ((Heap.mk (h.dicts ++ [d])).set h.dicts.length d2).get r = h.get r := by
    intro d d2
    simp only [Heap.set, Heap.get, List.getD_eq_getElem?_getD]
    rw [List.getElem?_set_ne hne]
    simp [List.getElem?_append, hr]
  have hmain :
      (RNNCellWrapper.fromConfigRef deserializeLayer cls h r).1.get r
        = h.get r := by
    unfold RNNCellWrapper.fromConfigRef
    cases hdg : dget ((Heap.mk (h.dicts ++ [h.get r])).get h.dicts.length)
        "cell" with
    | none => simpa [Heap.alloc, hdg] using hget1 (h.get r)
    | some cv => simpa [Heap.alloc, hdg] using hset (h.get r) _
  exact ⟨hmain, by rw [hmain]⟩

/-- Closed instance of `from_config_does_not_mutate_caller` on a one-entry
heap whose dictionary holds a `"cell"` entry. -/
theorem from_config_does_not_mutate_caller_witness :
    0 < (Heap.mk [[("cell", CVal.cellEntry "GRUCell" [("units", "4")])]]
        ).dicts.length ∧
    (RNNCellWrapper.fromConfigRef (fun _ => sampleCell)
        (fun c d => (c.className, d))
        (Heap.mk [[("cell", CVal.cellEntry "GRUCell" [("units", "4")])]])
        0).1.get 0
      = (Heap.mk [[("cell", CVal.cellEntry "GRUCell" [("units", "4")])]]
        ).get 0 :=
  ⟨by decide,
    (from_config_does_not_mutate_caller (fun _ => sampleCell)
      (fun c d => (c.className, d))
      (Heap.mk [[("cell", CVal.cellEntry "GRUCell" [("units", "4")])]])
      0 (by decide)).1⟩

/-- C3: the mnist CPU test's pass criterion,
`assertEqual(train_losses, sorted(train_losses, reverse=True))`, holds
exactly when the recorded losses are adjacent-pairwise non-increasing; any
increase anywhere in the sequence fails the test. -/
theorem mnist_test_passes_iff_losses_nonincreasing (losses : List ℚ) :
    testMnistTrainingCpuPasses losses = true ↔
      List.Chain' (fun a b : ℚ => b ≤ a) losses := by
  haveI htrans : IsTrans ℚ (fun a b : ℚ => b ≤ a) :=
    ⟨fun _ _ _ h1 h2 => le_trans h2 h1⟩
  haveI htotal : IsTotal ℚ (fun a b : ℚ => b ≤ a) :=
    ⟨fun a b => le_total b a⟩
  constructor
  · intro hpass
    have heq : losses = pySortedDescending losses :=
      of_decide_eq_true hpass
    rw [List.chain'_iff_pairwise, heq]
    exact List.sorted_insertionSort (fun a b : ℚ => b ≤ a) losses
  · intro hchain
    have hsorted : List.Sorted (fun a b : ℚ => b ≤ a) losses :=
      List.chain'_iff_pairwise.mp hchain
    exact decide_eq_true
      (Eq.symm (List.Sorted.insertionSort_eq hsorted))

/-- Closed instance of `mnist_test_passes_iff_losses_nonincreasing` at a
concrete non-increasing loss sequence. -/
theorem mnist_test_passes_iff_losses_nonincreasing_witness :
    testMnistTrainingCpuPasses [3, 2, 2, 1] = true :=
  (mnist_test_passes_iff_losses_nonincreasing [3, 2, 2, 1]).mpr
    (by norm_num [List.chain'_cons, List.chain_cons])

/-- C7: the mnist CPU test installs exactly 8 logical devices on the first
physical CPU device and creates a mesh whose device list is exactly
`CPU:0` through `CPU:7` with a single mesh dimension named `batch` of
size 8. -/
theorem mnist_cpu_mesh_configuration :
    mnistCpuMesh.devices
        = ["CPU:0", "CPU:1", "CPU:2", "CPU:3",
           "CPU:4", "CPU:5", "CPU:6", "CPU:7"] ∧
    mnistCpuMesh.meshDims = [("batch", 8)] ∧
    mnistCpuLogicalDeviceSetting.physicalDeviceIndex = 0 ∧
    mnistCpuLogicalDeviceSetting.configs.length = 8 :=
  ⟨rfl, rfl, rfl, rfl⟩
